import Mathlib

/-!
Verification of the sensing/state-synchronization core of the Tailwind
pedal-assist controller (repository `pcace/Tailwind`).

The development shallowly embeds the torque-sensor calibration routine and
the torque evaluator from `src/src/torque_sensor.cpp`, the BLE mode-control
write handler from `src/src/ble_telemetry.cpp`, and a small interleaving
model of the shared-telemetry access discipline used by
`src/src/ble_telemetry.cpp` (locked) and `src/src/wifi_telemetry.cpp`
(unlocked).  Configuration constants (`TORQUE_CALIBRATION_SAMPLES`,
`TORQUE_STANDSTILL_DEFAULT`, `TORQUE_THRESHOLD`, `TORQUE_MAX_BACKWARD`,
`TORQUE_MAX_FORWARD`, `TORQUE_MAX_NM`, `NUM_ACTIVE_PROFILES`) live in a
configuration header that is not part of the sources; they are passed as
explicit parameters.  C++ `float` arithmetic is idealized as `ℚ`; the one
place where IEEE behaviour differs from rational arithmetic (division by a
zero `max_deviation`, which in IEEE yields +infinity and is then absorbed
by the clamp) is made explicit in the embedding and commented there.
-/

-- =============================================================================
-- Calibration engine (src/src/torque_sensor.cpp, calibrate_torque_sensor)
-- =============================================================================

/-- Terminal status of a calibration run.  The source records the outcome of
`calibrate_torque_sensor` via the branch it takes (and prints it on the
serial diagnostics); the spec names the two terminal outcomes `Complete` and
`FailedUsingDefault` in `CalibrationState.status`.  The boolean global
`torque_calibration_complete` is carried separately in `CalResult`. -/
inductive CalStatus
  | NotStarted
  | InProgress
  | Complete
  | FailedUsingDefault
  deriving DecidableEq

/-- Configuration constants of the calibration routine that are defined in
the repository's configuration header (not under `src/`):
`TORQUE_CALIBRATION_SAMPLES` and `TORQUE_STANDSTILL_DEFAULT`. -/
structure CalConfig where
  numSamples : ℕ
  defaultBaseline : ℤ

/-- Sanity check applied to each ADC reading during calibration
(`src/src/torque_sensor.cpp:39`): `reading >= 100 && reading <= 3995`. -/
def validSample (reading : ℤ) : Bool :=
  100 ≤ reading && reading ≤ 3995

/-- Outcome of `calibrate_torque_sensor`: the globals
`torque_standstill_calibrated` and `torque_calibration_complete` it assigns,
together with the spec-level status (the branch taken). -/
structure CalResult where
  baseline : ℤ
  status : CalStatus
  calibration_complete : Bool
  deriving DecidableEq

/-- Embedding of the non-debug path of `calibrate_torque_sensor`
(`src/src/torque_sensor.cpp:28-69`).  `readings` is the sequence of ADC
readings the sampling loop actually obtained (at most
`TORQUE_CALIBRATION_SAMPLES` of them; the timeout break only shortens the
sequence).  The loop's accumulation of `total_readings` and `valid_samples`
over in-range readings is expressed as sum/length of the filtered list.
The success branch computes `(int)(total_readings / valid_samples)`; both
operands are nonnegative there, so C++ truncating division coincides with
the Euclidean `/` on `ℤ` used here. -/
def calibrate_torque_sensor (cfg : CalConfig) (readings : List ℤ) : CalResult :=
  let accepted := readings.filter (fun r => validSample r)
  let total_readings := accepted.sum
  let valid_samples := accepted.length
  if valid_samples ≥ cfg.numSamples / 2 then
    { baseline := total_readings / (valid_samples : ℤ)
      status := CalStatus.Complete
      calibration_complete := true }
  else
    { baseline := cfg.defaultBaseline
      status := CalStatus.FailedUsingDefault
      calibration_complete := true }

-- =============================================================================
-- Torque evaluator (src/src/torque_sensor.cpp, update_torque)
-- =============================================================================

/-- Configuration constants of the torque evaluator, defined in the
repository's configuration header (not under `src/`): `TORQUE_THRESHOLD`,
`TORQUE_MAX_BACKWARD`, `TORQUE_MAX_FORWARD` and `TORQUE_MAX_NM`. -/
structure TorqueConfig where
  threshold : ℤ
  maxBackward : ℤ
  maxForward : ℤ
  maxNm : ℚ

/-- `max_deviation` as computed in `src/src/torque_sensor.cpp:122-123`:
`max(torque_standstill_calibrated - TORQUE_MAX_BACKWARD,
TORQUE_MAX_FORWARD - torque_standstill_calibrated)`. -/
def max_deviation (cfg : TorqueConfig) (baseline : ℤ) : ℤ :=
  max (baseline - cfg.maxBackward) (cfg.maxForward - baseline)

/-- The two sequential clamps applied to `crank_torque_nm` in
`src/src/torque_sensor.cpp:130-131`: first `if (t > TORQUE_MAX_NM) t =
TORQUE_MAX_NM`, then `if (t < 0) t = 0`. -/
def clampTorque (t maxNm : ℚ) : ℚ :=
  if t > maxNm then (if maxNm < 0 then 0 else maxNm)
  else if t < 0 then 0 else t

/-- Body of the normal-mode evaluator after `absolute_deviation =
abs(raw_torque_value - torque_standstill_calibrated)` has been computed
(`src/src/torque_sensor.cpp:117-131`).  The source computes
`(float)absolute_deviation / max_deviation * TORQUE_MAX_NM` with no guard
on `max_deviation`; when `max_deviation = 0` the IEEE float quotient of the
positive numerator (it is `≥ TORQUE_THRESHOLD`, which is positive in any
meaningful configuration) is +infinity, which the clamp of line 130 then
maps to `TORQUE_MAX_NM`.  Rational division by zero is 0, not +infinity,
so that case is spelled out explicitly here to stay faithful to the C++
behaviour. -/
def torque_from_deviation (cfg : TorqueConfig) (baseline absolute_deviation : ℤ) : ℚ :=
  if absolute_deviation < cfg.threshold then 0
  else if max_deviation cfg baseline = 0 then
    (if cfg.maxNm < 0 then 0 else cfg.maxNm)
  else
    clampTorque ((absolute_deviation : ℚ) / (max_deviation cfg baseline : ℚ) * cfg.maxNm)
      cfg.maxNm

/-- Embedding of the normal (non-debug) path of `update_torque`
(`src/src/torque_sensor.cpp:103-135`): deviation from the calibrated
center, absolute value, dead-zone test, scaling and clamping.  Returns the
value assigned to `crank_torque_nm` (which line 134 copies unchanged into
`filtered_torque`). -/
def update_torque (cfg : TorqueConfig) (baseline raw_torque_value : ℤ) : ℚ :=
  torque_from_deviation cfg baseline |raw_torque_value - baseline|

/-- Truncation toward zero, the semantics of the C `(int)` cast applied to
a floating-point value. -/
def ratTrunc (q : ℚ) : ℤ :=
  if 0 ≤ q then ⌊q⌋ else ⌈q⌉

/-- Values assigned by the debug-simulation path of `update_torque`. -/
structure DebugTorqueOut where
  crank_torque_nm : ℚ
  filtered_torque : ℚ
  raw_torque_value : ℤ
  deriving DecidableEq

/-- Embedding of the debug-simulation path of `update_torque`
(`src/src/torque_sensor.cpp:82-100`, taken when `debug_mode &&
debug_simulate_torque`): `crank_torque_nm` and `filtered_torque` are
assigned the externally driven `debug_torque_nm` directly, and
`raw_torque_value` is reconstructed by the inverse of the scaling formula
(`torque_ratio = t / TORQUE_MAX_NM`, `simulated_deviation =
(int)(torque_ratio * max_deviation)`). -/
def update_torque_debug (cfg : TorqueConfig) (baseline : ℤ) (debug_torque_nm : ℚ) :
    DebugTorqueOut :=
  let raw :=
    if debug_torque_nm > 0 then
      baseline + ratTrunc (debug_torque_nm / cfg.maxNm * (max_deviation cfg baseline : ℚ))
    else baseline
  { crank_torque_nm := debug_torque_nm
    filtered_torque := debug_torque_nm
    raw_torque_value := raw }

-- =============================================================================
-- BLE mode-control write handler (src/src/ble_telemetry.cpp, onWrite)
-- =============================================================================

/-- Embedding of `EBikeModeControlCallbacks::onWrite`
(`src/src/ble_telemetry.cpp:83-103`).  `value` is the written payload as a
byte sequence; `numActiveProfiles` is the configuration constant
`NUM_ACTIVE_PROFILES` (defined outside `src/`).  The result is `some m`
when the handler calls `changeAssistMode(m)` (payload non-empty and first
byte in range) and `none` when it leaves the active mode unchanged. -/
def modeControlOnWrite (numActiveProfiles : ℕ) (value : List ℕ) : Option ℕ :=
  match value with
  | [] => none
  | newMode :: _ => if newMode < numActiveProfiles then some newMode else none

-- =============================================================================
-- Telemetry store access discipline (ble_telemetry.cpp / wifi_telemetry.cpp)
-- =============================================================================

/-- Modelled from the spec: the control-loop/driver producer code
(`publish_sensor` / `publish_controller` of spec section 4.3) is part of
the repository but not under `src/`; its events `acquire`, `writeTorque`,
`writeBattery`, `release` follow the spec's discipline — each producer
takes the single mutual-exclusion primitive (`dataUpdateSemaphore`),
updates its own fields as one transaction, and releases.  The two
consumer events come from the sources: `bleTelemetryRead` is
`updateBLETelemetryData` (`src/src/ble_telemetry.cpp:148-296`), which
copies the shared fields only after `xSemaphoreTake(dataUpdateSemaphore,
pdMS_TO_TICKS(10))` succeeds and skips the cycle otherwise;
`wifiStatusRead` is `handleStatusAPI` (`src/src/wifi_telemetry.cpp:102-112`),
which copies `sharedVescData`/`sharedSensorData` fields with no semaphore
interaction at all. -/
inductive TelemetryEv
  | acquire
  | release
  | writeTorque (txn : ℕ)
  | writeBattery (txn : ℕ)
  | wifiStatusRead
  | bleTelemetryRead

/-- State of the interleaving model: whether `dataUpdateSemaphore` is held
by the producer, and, for each of two representative shared fields, the id
of the producer transaction that last wrote it.  `wifiSeen` and `bleSeen`
collect the (torque-tag, battery-tag) pairs each consumer copied; a pair
with distinct tags is a torn snapshot, one mixing two producer
transactions. -/
structure TelemetryState where
  lockHeld : Bool
  torqueTxn : ℕ
  batteryTxn : ℕ
  wifiSeen : List (ℕ × ℕ)
  bleSeen : List (ℕ × ℕ)
  deriving DecidableEq

/-- Initial state: semaphore free, all fields written by transaction 0. -/
def initTelemetry : TelemetryState :=
  { lockHeld := false, torqueTxn := 0, batteryTxn := 0, wifiSeen := [], bleSeen := [] }

/-- One step of the interleaving model.  A `bleTelemetryRead` while the
semaphore is held models the 10 ms `xSemaphoreTake` timeout of
`updateBLETelemetryData`: the whole update is skipped.  A `wifiStatusRead`
copies the fields unconditionally, exactly as `handleStatusAPI` does. -/
def telemetryStep (s : TelemetryState) : TelemetryEv → TelemetryState
  | TelemetryEv.acquire => if s.lockHeld then s else { s with lockHeld := true }
  | TelemetryEv.release => { s with lockHeld := false }
  | TelemetryEv.writeTorque k => { s with torqueTxn := k }
  | TelemetryEv.writeBattery k => { s with batteryTxn := k }
  | TelemetryEv.wifiStatusRead =>
      { s with wifiSeen := (s.torqueTxn, s.batteryTxn) :: s.wifiSeen }
  | TelemetryEv.bleTelemetryRead =>
      if s.lockHeld then s
      else { s with bleSeen := (s.torqueTxn, s.batteryTxn) :: s.bleSeen }

/-- Run of the interleaving model from the initial state. -/
def telemetryRun (evs : List TelemetryEv) : TelemetryState :=
  evs.foldl telemetryStep initTelemetry

-- =============================================================================
-- Helper lemmas
-- =============================================================================

/-- The sequential clamp keeps the result inside `[0, maxNm]` whenever
`maxNm` is nonnegative. -/
theorem clampTorque_mem (t maxNm : ℚ) (h : 0 ≤ maxNm) :
    0 ≤ clampTorque t maxNm ∧ clampTorque t maxNm ≤ maxNm := by
  unfold clampTorque
  split_ifs <;> constructor <;> linarith

/-- The sequential clamp returns `maxNm` whenever the unclamped value is at
least `maxNm` and `maxNm` is nonnegative. -/
theorem clampTorque_of_ge (t maxNm : ℚ) (h0 : 0 ≤ maxNm) (ht : maxNm ≤ t) :
    clampTorque t maxNm = maxNm := by
  unfold clampTorque
  split_ifs <;> linarith

-- =============================================================================
-- Claims
-- =============================================================================

/-- C5 : for every raw sample whose deviation from the calibrated baseline
is strictly inside the noise band (`baseline - T < r < baseline + T`), the
non-debug evaluator reports exactly zero torque (dead-zone,
`src/src/torque_sensor.cpp:117-118`). -/
theorem C5_dead_zone_zero (cfg : TorqueConfig) (baseline raw : ℤ)
    (hlo : baseline - cfg.threshold < raw) (hhi : raw < baseline + cfg.threshold) :
    update_torque cfg baseline raw = 0 := by
  unfold update_torque torque_from_deviation
  have h : |raw - baseline| < cfg.threshold := by
    rw [abs_lt]
    omega
  rw [if_pos h]

/-- C5 witness: a concrete sample 10 ADC counts above a 2000-count baseline
with threshold 30 reads as zero torque. -/
theorem C5_witness :
    update_torque ⟨30, 0, 4095, 80⟩ 2000 2010 = 0 :=
  C5_dead_zone_zero ⟨30, 0, 4095, 80⟩ 2000 2010 (by decide) (by decide)

/-- C6 : the evaluator is symmetric in the deviation: a raw sample `d`
counts above the baseline evaluates exactly as one `d` counts below it, for
every deviation magnitude and every baseline — only `abs(deviation)` enters
the computation (`src/src/torque_sensor.cpp:111-131`). -/
theorem C6_symmetric_in_deviation (cfg : TorqueConfig) (baseline d : ℤ) :
    update_torque cfg baseline (baseline + d) = update_torque cfg baseline (baseline - d) := by
  unfold update_torque
  have h1 : |baseline + d - baseline| = |d| := by
    rw [add_sub_cancel_left]
  have h2 : |baseline - d - baseline| = |d| := by
    have h : baseline - d - baseline = -d := by ring
    rw [h, abs_neg]
  rw [h1, h2]

/-- C10 : the BLE mode-control write handler invokes `changeAssistMode m`
exactly when the written payload is non-empty, its first byte is `m`, and
`m < NUM_ACTIVE_PROFILES`; an empty write or an out-of-range first byte
leaves the active mode unchanged (`src/src/ble_telemetry.cpp:83-103`). -/
theorem C10_mode_write_guard (numActiveProfiles : ℕ) (value : List ℕ) (m : ℕ) :
    modeControlOnWrite numActiveProfiles value = some m ↔
      value.head? = some m ∧ m < numActiveProfiles := by
  cases value with
  | nil => simp [modeControlOnWrite]
  | cons b rest =>
    simp only [modeControlOnWrite, List.head?, Option.some.injEq]
    by_cases h : b < numActiveProfiles
    · rw [if_pos h]
      constructor
      · intro hb
        rcases Option.some.injEq _ _ ▸ hb with rfl
        exact ⟨rfl, by omega⟩
      · rintro ⟨rfl, _⟩
        rfl
    · rw [if_neg h]
      constructor
      · intro hb
        exact absurd hb (by simp)
      · rintro ⟨rfl, hm⟩
        exact absurd hm h

/-- C3 : evidence against the claimed guard.  `update_torque` performs no
validation of `max_deviation` before dividing by it
(`src/src/torque_sensor.cpp:117-127` has no such test).  In the degenerate
configuration the claim describes — the calibrated baseline (2000) sitting
exactly at the configured physical extents so that `max_deviation = 0` —
a raw sample 2300 (deviation 300, above the threshold 30) makes the code
divide by zero: the IEEE float quotient is +infinity and the clamp of line
130 turns it into `TORQUE_MAX_NM` (80 here), i.e. full torque, not the
safe zero torque the claim requires. -/
theorem C3_no_guard_degenerate_full_torque :
    max_deviation ⟨30, 2000, 2000, 80⟩ 2000 = 0 ∧
    update_torque ⟨30, 2000, 2000, 80⟩ 2000 2300 = 80 ∧
    (80 : ℚ) ≠ 0 := by
  refine ⟨by decide, ?_, by norm_num⟩
  unfold update_torque torque_from_deviation
  rw [if_neg (by decide), if_pos (by decide)]
  norm_num

/-- C7 : evidence against the claimed universal locking discipline.  In the
interleaving model, the producer (modelled from the spec) acquires the
semaphore, writes the torque field of transaction 1, and has not yet
written the battery field when both consumers run: the BLE consumer
(`updateBLETelemetryData`) finds the semaphore held, times out and skips
the cycle — but the WiFi consumer (`handleStatusAPI`), which never touches
the semaphore, copies the fields mid-transaction and obtains the torn
snapshot `(1, 0)`, mixing producer transactions 1 and 0. -/
theorem C7_unlocked_wifi_read_observes_torn_snapshot :
    (telemetryRun [TelemetryEv.acquire, TelemetryEv.writeTorque 1,
        TelemetryEv.wifiStatusRead, TelemetryEv.bleTelemetryRead,
        TelemetryEv.writeBattery 1, TelemetryEv.release]).wifiSeen = [(1, 0)] ∧
    (1 : ℕ) ≠ 0 ∧
    (telemetryRun [TelemetryEv.acquire, TelemetryEv.writeTorque 1,
        TelemetryEv.wifiStatusRead, TelemetryEv.bleTelemetryRead,
        TelemetryEv.writeBattery 1, TelemetryEv.release]).bleSeen = [] := by
  refine ⟨rfl, by decide, rfl⟩

/-- C1 counterexample: the code truncates, it does not round.  With sample
count 3 and all three readings [100, 100, 105] accepted, the code computes
`(int)(305 / 3) = 101` while the rounded arithmetic mean of the accepted
samples is `round(101.66…) = 102`. -/
theorem C1_counterexample :
    (calibrate_torque_sensor ⟨3, 2048⟩ [100, 100, 105]).baseline ≠
      round (((([100, 100, 105] : List ℤ).filter (fun r => validSample r)).sum : ℚ) /
        ((([100, 100, 105] : List ℤ).filter (fun r => validSample r)).length : ℚ)) := by
  have hb : (calibrate_torque_sensor ⟨3, 2048⟩ [100, 100, 105]).baseline = 101 := by decide
  have hL : (([100, 100, 105] : List ℤ).filter (fun r => validSample r)) = [100, 100, 105] := by
    decide
  have hs : (([100, 100, 105] : List ℤ)).sum = 305 := by decide
  have hl : (([100, 100, 105] : List ℤ)).length = 3 := by decide
  rw [hb, hL, hs, hl]
  rw [round_eq]
  norm_num

/-- C1 amended: a non-debug calibration run in which the accepted sample
count is at least half the fixed sample count takes the success branch:
status `Complete` and baseline equal to the integer-truncated mean
`sum div count` of the accepted samples (not the rounded mean); on the
all-valid sequence [2000, 2010, 2005, 2020, 1995] this is still 2006. -/
theorem C1_success_truncated_mean (cfg : CalConfig) (readings : List ℤ)
    (hpos : 0 < (readings.filter (fun r => validSample r)).length)
    (hhalf : cfg.numSamples ≤ 2 * (readings.filter (fun r => validSample r)).length) :
    (calibrate_torque_sensor cfg readings).status = CalStatus.Complete ∧
    (calibrate_torque_sensor cfg readings).baseline =
      (readings.filter (fun r => validSample r)).sum /
        (((readings.filter (fun r => validSample r)).length : ℤ)) := by
  have h : (readings.filter (fun r => validSample r)).length ≥ cfg.numSamples / 2 := by
    omega
  unfold calibrate_torque_sensor
  rw [if_pos h]
  exact ⟨rfl, rfl⟩

/-- C1 witness: the spec's example run — five samples, all accepted —
completes with baseline 2006. -/
theorem C1_witness :
    (calibrate_torque_sensor ⟨5, 2048⟩ [2000, 2010, 2005, 2020, 1995]).status =
      CalStatus.Complete ∧
    (calibrate_torque_sensor ⟨5, 2048⟩ [2000, 2010, 2005, 2020, 1995]).baseline = 2006 := by
  have h := C1_success_truncated_mean ⟨5, 2048⟩ [2000, 2010, 2005, 2020, 1995]
    (by decide) (by decide)
  exact ⟨h.1, h.2.trans (by decide)⟩

/-- C2 : a non-debug calibration run in which fewer than half of the fixed
sample count are accepted — the zero-valid case included — falls back to
`baseline = TORQUE_STANDSTILL_DEFAULT` exactly, with the terminal status
`FailedUsingDefault`, which is distinct from `Complete`
(`src/src/torque_sensor.cpp:62-69`). -/
theorem C2_failure_uses_default (cfg : CalConfig) (readings : List ℤ)
    (hfew : (readings.filter (fun r => validSample r)).length < cfg.numSamples / 2) :
    (calibrate_torque_sensor cfg readings).baseline = cfg.defaultBaseline ∧
    (calibrate_torque_sensor cfg readings).status = CalStatus.FailedUsingDefault ∧
    CalStatus.FailedUsingDefault ≠ CalStatus.Complete := by
  have h : ¬ ((readings.filter (fun r => validSample r)).length ≥ cfg.numSamples / 2) := by
    omega
  unfold calibrate_torque_sensor
  rw [if_neg h]
  exact ⟨rfl, rfl, by decide⟩

/-- C2 witness: with sample count 5 and no reading inside [100, 3995], the
run fails and keeps the default baseline 2048. -/
theorem C2_witness :
    (calibrate_torque_sensor ⟨5, 2048⟩ [4000, 50, 99, 3996]).baseline = 2048 ∧
    (calibrate_torque_sensor ⟨5, 2048⟩ [4000, 50, 99, 3996]).status =
      CalStatus.FailedUsingDefault ∧
    CalStatus.FailedUsingDefault ≠ CalStatus.Complete :=
  C2_failure_uses_default ⟨5, 2048⟩ [4000, 50, 99, 3996] (by decide)

/-- C9 : whenever a non-debug calibration run takes its successful branch
(accepted count nonempty and at least `TORQUE_CALIBRATION_SAMPLES / 2`),
the resulting baseline — the truncated mean of samples each lying in
[100, 3995] — itself lies in [100, 3995]. -/
theorem C9_success_baseline_in_valid_range (cfg : CalConfig) (readings : List ℤ)
    (hpos : 0 < (readings.filter (fun r => validSample r)).length)
    (hhalf : cfg.numSamples / 2 ≤ (readings.filter (fun r => validSample r)).length) :
    (calibrate_torque_sensor cfg readings).status = CalStatus.Complete ∧
    100 ≤ (calibrate_torque_sensor cfg readings).baseline ∧
    (calibrate_torque_sensor cfg readings).baseline ≤ 3995 := by
  have hmem : ∀ x ∈ readings.filter (fun r => validSample r), 100 ≤ x ∧ x ≤ 3995 := by
    intro x hx
    have hpx : validSample x = true := List.of_mem_filter hx
    unfold validSample at hpx
    simp only [Bool.and_eq_true, decide_eq_true_eq] at hpx
    exact hpx
  set acc := readings.filter (fun r => validSample r) with hacc
  have hlow : (acc.length : ℤ) * 100 ≤ acc.sum := by
    have h := List.card_nsmul_le_sum acc 100 (fun x hx => (hmem x hx).1)
    simpa [nsmul_eq_mul] using h
  have hhigh : acc.sum ≤ (acc.length : ℤ) * 3995 := by
    have h := List.sum_le_card_nsmul acc 3995 (fun x hx => (hmem x hx).2)
    simpa [nsmul_eq_mul] using h
  have hlen : (0 : ℤ) < (acc.length : ℤ) := by exact_mod_cast hpos
  have hbase : (calibrate_torque_sensor cfg readings).baseline =
      acc.sum / (acc.length : ℤ) := by
    unfold calibrate_torque_sensor
    rw [← hacc, if_pos hhalf]
  have hstat : (calibrate_torque_sensor cfg readings).status = CalStatus.Complete := by
    unfold calibrate_torque_sensor
    rw [← hacc, if_pos hhalf]
  refine ⟨hstat, ?_, ?_⟩
  · rw [hbase]
    exact (Int.le_ediv_iff_mul_le hlen).mpr (by linarith)
  · rw [hbase]
    have h2 := Int.ediv_le_ediv hlen hhigh
    rwa [mul_comm, Int.mul_ediv_cancel _ (by omega : (acc.length : ℤ) ≠ 0)] at h2

/-- C9 witness: a run with sample count 2 whose single accepted reading is
2000 completes with a baseline inside [100, 3995]. -/
theorem C9_witness :
    (calibrate_torque_sensor ⟨2, 2048⟩ [2000, 4050]).status = CalStatus.Complete ∧
    100 ≤ (calibrate_torque_sensor ⟨2, 2048⟩ [2000, 4050]).baseline ∧
    (calibrate_torque_sensor ⟨2, 2048⟩ [2000, 4050]).baseline ≤ 3995 :=
  C9_success_baseline_in_valid_range ⟨2, 2048⟩ [2000, 4050] (by decide) (by decide)

/-- C4 counterexample: saturation does not hold at both physical extents.
With extents 0 and 4095, threshold 30, `TORQUE_MAX_NM = 80`, and the valid
calibrated baseline 2006 (the spec's own example baseline), the backward
extent `r = 0` gives `absolute_deviation = 2006` but `max_deviation =
max(2006, 2089) = 2089`, so the code reports `2006 / 2089 * 80 ≈ 76.8`,
not `TORQUE_MAX_NM`. -/
theorem C4_counterexample :
    update_torque ⟨30, 0, 4095, 80⟩ 2006 0 ≠ 80 := by
  unfold update_torque torque_from_deviation clampTorque
  have habs : |(0 : ℤ) - 2006| = 2006 := by decide
  rw [habs]
  rw [if_neg (by decide), if_neg (by decide)]
  have hmd : ((max_deviation ⟨30, 0, 4095, 80⟩ 2006 : ℤ) : ℚ) = 2089 := by
    rw [show max_deviation ⟨30, 0, 4095, 80⟩ 2006 = 2089 from by decide]
    norm_num
  rw [hmd]
  norm_num

/-- C4 amended: for every configuration with nonnegative `TORQUE_MAX_NM`,
the reported torque always lies in [0, `TORQUE_MAX_NM`]; and the exact
saturation `torque = TORQUE_MAX_NM` holds whenever the raw sample's
absolute deviation reaches `max_deviation` (in particular at the physical
extent on the side of the larger extent, but not in general at the nearer
extent), provided the deviation also clears the dead-zone threshold and
`max_deviation` is positive. -/
theorem C4_clamped_and_far_extent_saturates (cfg : TorqueConfig) (baseline raw : ℤ)
    (hmax : 0 ≤ cfg.maxNm) :
    (0 ≤ update_torque cfg baseline raw ∧ update_torque cfg baseline raw ≤ cfg.maxNm) ∧
    (cfg.threshold ≤ |raw - baseline| → 0 < max_deviation cfg baseline →
      max_deviation cfg baseline ≤ |raw - baseline| →
      update_torque cfg baseline raw = cfg.maxNm) := by
  constructor
  · unfold update_torque torque_from_deviation
    split_ifs with h1 h2 h3
    · exact ⟨le_refl 0, hmax⟩
    · exact ⟨le_refl 0, hmax⟩
    · exact ⟨hmax, le_refl _⟩
    · exact clampTorque_mem _ _ hmax
  · intro hth hmdpos hmdle
    unfold update_torque torque_from_deviation
    rw [if_neg (by omega), if_neg (by omega)]
    apply clampTorque_of_ge _ _ hmax
    have hr : (1 : ℚ) ≤ (|raw - baseline| : ℤ) / ((max_deviation cfg baseline : ℤ) : ℚ) := by
      rw [one_le_div (by exact_mod_cast hmdpos)]
      exact_mod_cast hmdle
    calc cfg.maxNm = 1 * cfg.maxNm := (one_mul _).symm
      _ ≤ ((|raw - baseline| : ℤ) : ℚ) / ((max_deviation cfg baseline : ℤ) : ℚ) * cfg.maxNm :=
          mul_le_mul_of_nonneg_right hr hmax

/-- C4 witness: with extents 0 and 4095, threshold 30, maximum 80 and
baseline 2500, the backward extent `r = 0` realizes `max_deviation = 2500`
and the evaluator reports exactly 80; the bounds [0, 80] hold as well. -/
theorem C4_witness :
    (0 ≤ update_torque ⟨30, 0, 4095, 80⟩ 2500 0 ∧
      update_torque ⟨30, 0, 4095, 80⟩ 2500 0 ≤ 80) ∧
    update_torque ⟨30, 0, 4095, 80⟩ 2500 0 = 80 := by
  have h := C4_clamped_and_far_extent_saturates ⟨30, 0, 4095, 80⟩ 2500 0 (by norm_num)
  exact ⟨h.1, h.2 (by decide) (by decide) (by decide)⟩

/-- C8 : in debug-simulation mode the evaluator assigns the simulated
target torque `t` directly to both `crank_torque_nm` and `filtered_torque`
(`src/src/torque_sensor.cpp:85-86`); for every `t` strictly between 0 and
`TORQUE_MAX_NM` the round trip through the inverse-mapping raw-sample
generator therefore reproduces `t` exactly (hence within any
floating-point tolerance), with no dead-zone applied — the equality does
not depend on `TORQUE_THRESHOLD` at all.  Reproducibility is inherent: the
embedding is a pure function of the simulated input. -/
theorem C8_debug_roundtrip (cfg : TorqueConfig) (baseline : ℤ) (t : ℚ)
    (hpos : 0 < t) (hlt : t < cfg.maxNm) :
    (update_torque_debug cfg baseline t).crank_torque_nm = t ∧
    (update_torque_debug cfg baseline t).filtered_torque = t :=
  ⟨rfl, rfl⟩

/-- C8 witness: a simulated target of 5 Nm (inside (0, 80), below the
dead-zone threshold 30 of the normal path) is reported back exactly. -/
theorem C8_witness :
    (update_torque_debug ⟨30, 0, 4095, 80⟩ 2000 5).crank_torque_nm = 5 ∧
    (update_torque_debug ⟨30, 0, 4095, 80⟩ 2000 5).filtered_torque = 5 :=
  C8_debug_roundtrip ⟨30, 0, 4095, 80⟩ 2000 5 (by norm_num) (by norm_num)
